import Mathlib

/-!
Verification of the analytical query catalog of the insurance dashboard
(`insu_streamlit.py`): a shallow embedding of its DuckDB SQL queries as
Lean functions over lists of rows, with numeric columns modelled as
exact rationals (ℚ).
-/

namespace Insu

/-- A row of the `customers` table (`cust.csv`): columns `CUST_ID`, `SEX`,
`AGE` (nullable integer), `SIU_CUST_YN` (fraud flag, `"Y"` or not). -/
structure Customer where
  cust_id : Nat
  sex : String
  age : Option Int
  siu_cust_yn : String
deriving DecidableEq, Repr

/-- A row of the `cntt` (contracts) table: columns `POLY_NO`, `CUST_ID`
(foreign key into `customers`), `GOOD_CLSF_CDNM` (product classification). -/
structure Contract where
  poly_no : Nat
  cust_id : Nat
  good_clsf_cdnm : String
deriving DecidableEq, Repr

/-- `SIU_CUST_YN = 'Y'` — the fraud-flag test used in every query. -/
def isFraud (c : Customer) : Bool := c.siu_cust_yn = "Y"

/-- SQL `GROUP BY f`: the distinct keys of `l` under `f`, each paired with
the sublist of rows mapped to it.  Key order is first occurrence. -/
def groupRows {α β : Type} [DecidableEq β] (f : α → β) (l : List α) :
    List (β × List α) :=
  ((l.map f).dedup).map (fun k => (k, l.filter (fun x => decide (f x = k))))

/-- `SUM(CASE WHEN SIU_CUST_YN = 'Y' THEN 1 ELSE 0 END)` over a group. -/
def fraudCount (g : List Customer) : Nat := g.countP isFraud

/-- `AVG(CASE WHEN SIU_CUST_YN = 'Y' THEN 1.0 ELSE 0.0 END) * 100` over a
group, as an exact rational (the catalog queries' fraud-rate formula). -/
def fraudRateAvg (g : List Customer) : ℚ :=
  ((fraudCount g : ℚ) / (g.length : ℚ)) * 100

/-- `(SUM(CASE WHEN SIU_CUST_YN = 'Y' THEN 1 ELSE 0 END) * 100.0) / COUNT(*)`
over a group (the Overview queries' fraud-rate formula, before ROUND). -/
def fraudRateSum (g : List Customer) : ℚ :=
  ((fraudCount g : ℚ) * 100) / (g.length : ℚ)

/-- `ROUND(x, 2)`: round to two decimal places. -/
def round2 (q : ℚ) : ℚ := (round (q * 100) : ℚ) / 100

/-- Output row of the catalog query "Fraud by Gender"
(`SEX, TOTAL_CUSTOMERS, FRAUD_COUNT, FRAUD_RATE`). -/
structure GenderRow where
  sex : String
  total_customers : Nat
  fraud_count : Nat
  fraud_rate : ℚ
deriving DecidableEq, Repr

/-- Catalog query "Fraud by Gender" (lines 100–107): group `customers` by
`SEX`; emit count, fraud count, and the AVG-based fraud rate (no ROUND). -/
def fraudByGender (custs : List Customer) : List GenderRow :=
  (groupRows (fun c => c.sex) custs).map
    (fun kg => ⟨kg.1, kg.2.length, fraudCount kg.2, fraudRateAvg kg.2⟩)

/-- Output row of the Overview `gender_fraud_rate` query
(`SEX, FRAUD_COUNT, TOTAL_COUNT, FRAUD_RATE`). -/
structure OverviewGenderRow where
  sex : String
  fraud_count : Nat
  total_count : Nat
  fraud_rate : ℚ
deriving DecidableEq, Repr

/-- Overview `gender_fraud_rate` query (lines 54–61): group `customers` by
`SEX`; emit fraud count, count, and `ROUND(SUM(...) * 100.0 / COUNT(*), 2)`. -/
def genderFraudRateOverview (custs : List Customer) : List OverviewGenderRow :=
  (groupRows (fun c => c.sex) custs).map
    (fun kg => ⟨kg.1, fraudCount kg.2, kg.2.length, round2 (fraudRateSum kg.2)⟩)

/-- The age-bucketing `CASE` expression shared by the Overview
`age_fraud_rate` query and the catalog "Fraud by Age Group" query:
`WHEN AGE < 25 ... WHEN AGE BETWEEN 25 AND 40 ... WHEN AGE BETWEEN 41 AND 60
... ELSE 'Above 60'`, first match wins.  A SQL `NULL` age makes every `WHEN`
condition non-true, so a null age falls through to the `ELSE` branch. -/
def ageCase (a : Option Int) : String :=
  match a with
  | none => "Above 60"
  | some age =>
    if age < 25 then "Under 25"
    else if 25 ≤ age ∧ age ≤ 40 then "25-40"
    else if 41 ≤ age ∧ age ≤ 60 then "41-60"
    else "Above 60"

/-- Output row of the catalog query "Fraud by Age Group"
(`AGE_GROUP, TOTAL_CUSTOMERS, FRAUD_COUNT, FRAUD_RATE`). -/
structure AgeRow where
  age_group : String
  total_customers : Nat
  fraud_count : Nat
  fraud_rate : ℚ
deriving DecidableEq, Repr

/-- Catalog query "Fraud by Age Group" (lines 118–130): group `customers` by
the age-bucket label; emit count, fraud count, AVG-based fraud rate. -/
def fraudByAgeGroup (custs : List Customer) : List AgeRow :=
  (groupRows (fun c => ageCase c.age) custs).map
    (fun kg => ⟨kg.1, kg.2.length, fraudCount kg.2, fraudRateAvg kg.2⟩)

/-- Output row of the Overview `age_fraud_rate` query
(`AGE_GROUP, FRAUD_COUNT, TOTAL_COUNT, FRAUD_RATE`). -/
structure OverviewAgeRow where
  age_group : String
  fraud_count : Nat
  total_count : Nat
  fraud_rate : ℚ
deriving DecidableEq, Repr

/-- Overview `age_fraud_rate` query (lines 63–75): group `customers` by the
age-bucket label; emit fraud count, count, `ROUND(SUM * 100.0 / COUNT, 2)`. -/
def ageFraudRateOverview (custs : List Customer) : List OverviewAgeRow :=
  (groupRows (fun c => ageCase c.age) custs).map
    (fun kg => ⟨kg.1, fraudCount kg.2, kg.2.length, round2 (fraudRateSum kg.2)⟩)

/-- `FROM cntt JOIN customers ON cntt.CUST_ID = customers.CUST_ID`:
inner join, one output pair per matching (contract, customer) combination. -/
def joinCnttCustomers (cntt : List Contract) (custs : List Customer) :
    List (Contract × Customer) :=
  cntt.flatMap
    (fun ct => (custs.filter (fun cu => decide (cu.cust_id = ct.cust_id))).map
      (fun cu => (ct, cu)))

/-- Output row of the catalog query "Fraud by insurance products"
(`GOOD_CLSF_CDNM, TOTAL_POLICIES, FRAUD_COUNT, FRAUD_RATE`). -/
structure ProductRow where
  good_clsf_cdnm : String
  total_policies : Nat
  fraud_count : Nat
  fraud_rate : ℚ
deriving DecidableEq, Repr

/-- The grouped rows of the products query before `ORDER BY`/`LIMIT`:
group the joined pairs by `GOOD_CLSF_CDNM`, count, count frauds
(`customers.SIU_CUST_YN = 'Y'`), AVG-based fraud rate. -/
def productRows (cntt : List Contract) (custs : List Customer) :
    List ProductRow :=
  (groupRows (fun p => p.1.good_clsf_cdnm) (joinCnttCustomers cntt custs)).map
    (fun kg => ⟨kg.1, kg.2.length, kg.2.countP (fun p => isFraud p.2),
      ((kg.2.countP (fun p => isFraud p.2) : ℚ) / (kg.2.length : ℚ)) * 100⟩)

/-- The comparison of `ORDER BY FRAUD_RATE desc`. -/
def rateDesc (a b : ProductRow) : Bool := decide (b.fraud_rate ≤ a.fraud_rate)

/-- Catalog query "Fraud by insurance products" (lines 141–150): join,
group by product, `ORDER BY FRAUD_RATE desc`, `LIMIT 5`. -/
def fraudByProducts (cntt : List Contract) (custs : List Customer) :
    List ProductRow :=
  ((productRows cntt custs).mergeSort rateDesc).take 5

/-- What the Custom Query tab displays: either a result table or an
inline error message. -/
inductive Displayed (T : Type) : Type where
  | table : T → Displayed T
  | error : String → Displayed T
deriving DecidableEq, Repr

/-- The Custom Query `try/except` block (lines 180–186): run the
user-submitted SQL text through the engine (`exec`, an external collaborator
that either returns a tabular result or fails with a message); on success
display the result unchanged, on any failure display `"Error: "` followed by
the engine's error text. -/
def runCustomQuery {T : Type} (exec : String → Except String T) (q : String) :
    Displayed T :=
  match exec q with
  | .ok t => .table t
  | .error e => .error ("Error: " ++ e)

end Insu

namespace Insu

-- The three customers of the spec's example scenario.
/-- Example row (id=1, sex=M, age=30, fraud=Y). -/
def exCust1 : Customer := ⟨1, "M", some 30, "Y"⟩
/-- Example row (id=2, sex=M, age=50, fraud=N). -/
def exCust2 : Customer := ⟨2, "M", some 50, "N"⟩
/-- Example row (id=3, sex=F, age=20, fraud=N). -/
def exCust3 : Customer := ⟨3, "F", some 20, "N"⟩

/-- Example customer with a missing (SQL NULL) age. -/
def exCustNull : Customer := ⟨4, "M", none, "N"⟩

/-- Example row (id=5, sex=M, age=30, fraud=N): third male customer, making
a group of three with one fraud (rate 100/3, not expressible in 2 decimals). -/
def exCustM3 : Customer := ⟨5, "M", some 30, "N"⟩

/-- Example contract referencing customer 1. -/
def exContract : Contract := ⟨10, 1, "TERM"⟩

/-- Example orphan contract: customer id 99 matches no example customer. -/
def exContractOrphan : Contract := ⟨11, 99, "TERM"⟩

theorem mem_groupRows {α β : Type} [DecidableEq β] {f : α → β} {l : List α}
    {k : β} {g : List α} (h : (k, g) ∈ groupRows f l) :
    k ∈ l.map f ∧ g = l.filter (fun x => decide (f x = k)) := by
  simp only [groupRows, List.mem_map] at h
  obtain ⟨k', hk', hpair⟩ := h
  obtain ⟨rfl, rfl⟩ := Prod.mk.injEq .. ▸ hpair
  exact ⟨List.mem_dedup.mp hk', rfl⟩

theorem groupRows_length_pos {α β : Type} [DecidableEq β] {f : α → β}
    {l : List α} {k : β} {g : List α} (h : (k, g) ∈ groupRows f l) :
    0 < g.length := by
  obtain ⟨hk, rfl⟩ := mem_groupRows h
  obtain ⟨x, hx, hfx⟩ := List.mem_map.mp hk
  have : x ∈ l.filter (fun x => decide (f x = k)) :=
    List.mem_filter.mpr ⟨hx, by simp [hfx]⟩
  exact List.length_pos.mpr (List.ne_nil_of_mem this)

theorem key_mem_groupRows {α β : Type} [DecidableEq β] (f : α → β)
    (l : List α) {x : α} (hx : x ∈ l) :
    (f x, l.filter (fun y => decide (f y = f x))) ∈ groupRows f l := by
  simp only [groupRows, List.mem_map]
  exact ⟨f x, List.mem_dedup.mpr (List.mem_map_of_mem f hx), rfl⟩

theorem ratePct_nonneg (a b : ℕ) : 0 ≤ ((a : ℚ) / (b : ℚ)) * 100 := by
  positivity

theorem ratePct_le_100 {a b : ℕ} (h : a ≤ b) :
    ((a : ℚ) / (b : ℚ)) * 100 ≤ 100 := by
  rcases Nat.eq_zero_or_pos b with hb | hb
  · subst hb
    norm_num
  · have hb' : (0 : ℚ) < (b : ℚ) := by exact_mod_cast hb
    have h1 : ((a : ℚ) / (b : ℚ)) ≤ 1 := by
      rw [div_le_one hb']
      exact_mod_cast h
    nlinarith

theorem rateDesc_trans (a b c : ProductRow) :
    rateDesc a b → rateDesc b c → rateDesc a c := by
  simp only [rateDesc, decide_eq_true_eq]
  exact fun h1 h2 => le_trans h2 h1

theorem rateDesc_total (a b : ProductRow) : rateDesc a b || rateDesc b a := by
  simp only [rateDesc, Bool.or_eq_true, decide_eq_true_eq]
  exact le_total _ _

end Insu

/-- C1: on the example table [(1,M,30,Y), (2,M,50,N), (3,F,20,N)] the
Fraud by Gender query returns exactly the rows M: total=2, fraud=1,
rate=50 and F: total=1, fraud=0, rate=0. -/
theorem c1_fraud_by_gender_example :
    Insu.fraudByGender [Insu.exCust1, Insu.exCust2, Insu.exCust3] =
      [⟨"M", 2, 1, 50⟩, ⟨"F", 1, 0, 0⟩] := by
  simp [Insu.fraudByGender, Insu.groupRows, Insu.fraudCount, Insu.fraudRateAvg,
    Insu.isFraud, Insu.exCust1, Insu.exCust2, Insu.exCust3, List.dedup,
    List.pwFilter, List.filter, List.countP, List.countP.go]
  norm_num

/-- C2: the age-bucketing CASE expression is total and non-overlapping on
non-null integer ages: each of the four labels is assigned exactly on its
stated range (<25, 25–40, 41–60, >60), every age gets one of the four labels,
and the sample ages 10, 30, 50, 70 map to the four labels in order. -/
theorem c2_age_bucketing_partition :
    (∀ a : Int,
      (Insu.ageCase (some a) = "Under 25" ↔ a < 25) ∧
      (Insu.ageCase (some a) = "25-40" ↔ 25 ≤ a ∧ a ≤ 40) ∧
      (Insu.ageCase (some a) = "41-60" ↔ 41 ≤ a ∧ a ≤ 60) ∧
      (Insu.ageCase (some a) = "Above 60" ↔ 60 < a) ∧
      (Insu.ageCase (some a) = "Under 25" ∨ Insu.ageCase (some a) = "25-40" ∨
        Insu.ageCase (some a) = "41-60" ∨ Insu.ageCase (some a) = "Above 60")) ∧
    Insu.ageCase (some 10) = "Under 25" ∧ Insu.ageCase (some 30) = "25-40" ∧
    Insu.ageCase (some 50) = "41-60" ∧ Insu.ageCase (some 70) = "Above 60" := by
  refine ⟨fun a => ?_, by decide, by decide, by decide, by decide⟩
  have h : Insu.ageCase (some a) =
      if a < 25 then "Under 25"
      else if 25 ≤ a ∧ a ≤ 40 then "25-40"
      else if 41 ≤ a ∧ a ≤ 60 then "41-60"
      else "Above 60" := rfl
  rw [h]
  split_ifs with h1 h2 h3 <;>
    refine ⟨?_, ?_, ?_, ?_, ?_⟩ <;> simp_all <;> omega

/-- C3: for every input, the Fraud by insurance products query returns at
most 5 rows, sorted non-increasing by fraud_rate. -/
theorem c3_products_top5_sorted (cntt : List Insu.Contract)
    (custs : List Insu.Customer) :
    (Insu.fraudByProducts cntt custs).length ≤ 5 ∧
    (Insu.fraudByProducts cntt custs).Pairwise
      (fun a b => b.fraud_rate ≤ a.fraud_rate) := by
  constructor
  · exact (List.length_take_le 5 _)
  · have hs := List.sorted_mergeSort Insu.rateDesc_trans Insu.rateDesc_total
      (Insu.productRows cntt custs)
    have hp : ((Insu.productRows cntt custs).mergeSort Insu.rateDesc).Pairwise
        (fun a b => b.fraud_rate ≤ a.fraud_rate) :=
      hs.imp (fun h => by simpa [Insu.rateDesc] using h)
    exact hp.sublist (List.take_sublist 5 _)

/-- C5: in every grouped result row of the gender, age-group and product
queries, fraud_count ≤ total_count and 0 ≤ fraud_rate ≤ 100. -/
theorem c5_row_invariants (custs : List Insu.Customer)
    (cntt : List Insu.Contract) :
    (∀ r ∈ Insu.fraudByGender custs,
      r.fraud_count ≤ r.total_customers ∧
        0 ≤ r.fraud_rate ∧ r.fraud_rate ≤ 100) ∧
    (∀ r ∈ Insu.fraudByAgeGroup custs,
      r.fraud_count ≤ r.total_customers ∧
        0 ≤ r.fraud_rate ∧ r.fraud_rate ≤ 100) ∧
    (∀ r ∈ Insu.fraudByProducts cntt custs,
      r.fraud_count ≤ r.total_policies ∧
        0 ≤ r.fraud_rate ∧ r.fraud_rate ≤ 100) := by
  refine ⟨?_, ?_, ?_⟩
  · intro r hr
    simp only [Insu.fraudByGender, List.mem_map] at hr
    obtain ⟨⟨k, g⟩, hg, rfl⟩ := hr
    exact ⟨List.countP_le_length _, Insu.ratePct_nonneg _ _,
      Insu.ratePct_le_100 (List.countP_le_length _)⟩
  · intro r hr
    simp only [Insu.fraudByAgeGroup, List.mem_map] at hr
    obtain ⟨⟨k, g⟩, hg, rfl⟩ := hr
    exact ⟨List.countP_le_length _, Insu.ratePct_nonneg _ _,
      Insu.ratePct_le_100 (List.countP_le_length _)⟩
  · intro r hr
    have hr' : r ∈ (Insu.productRows cntt custs).mergeSort Insu.rateDesc :=
      List.mem_of_mem_take hr
    rw [List.mem_mergeSort] at hr'
    simp only [Insu.productRows, List.mem_map] at hr'
    obtain ⟨⟨k, g⟩, hg, rfl⟩ := hr'
    exact ⟨List.countP_le_length _, Insu.ratePct_nonneg _ _,
      Insu.ratePct_le_100 (List.countP_le_length _)⟩

/-- Witness for C5 at a concrete input: the single-row result of
Fraud by Gender on one fraudulent male customer. -/
theorem c5_row_invariants_witness :
    (1 : ℕ) ≤ 1 ∧ (0 : ℚ) ≤ 100 ∧ (100 : ℚ) ≤ 100 := by
  have hmem : (⟨"M", 1, 1, 100⟩ : Insu.GenderRow) ∈
      Insu.fraudByGender [Insu.exCust1] := by
    have h : Insu.fraudByGender [Insu.exCust1] = [⟨"M", 1, 1, 100⟩] := by
      simp [Insu.fraudByGender, Insu.groupRows, Insu.fraudCount,
        Insu.fraudRateAvg, Insu.isFraud, Insu.exCust1, List.dedup,
        List.pwFilter, List.filter, List.countP, List.countP.go]
    rw [h]
    exact List.mem_singleton.mpr rfl
  exact (c5_row_invariants [Insu.exCust1] []).1 ⟨"M", 1, 1, 100⟩ hmem

/-- C6: the Custom Query path is total (never crashes the session): for
every engine and every submitted SQL string, either the engine succeeds and
the full result table is displayed unchanged (no row or column limit), or the
engine fails and a single inline error message consisting of "Error: "
followed by the engine's error text is displayed. -/
theorem c6_custom_query_contract {T : Type}
    (exec : String → Except String T) (q : String) :
    (∃ t, exec q = Except.ok t ∧
      Insu.runCustomQuery exec q = Insu.Displayed.table t) ∨
    (∃ e, exec q = Except.error e ∧
      Insu.runCustomQuery exec q = Insu.Displayed.error ("Error: " ++ e)) := by
  cases h : exec q with
  | ok t => exact Or.inl ⟨t, rfl, by simp [Insu.runCustomQuery, h]⟩
  | error e => exact Or.inr ⟨e, rfl, by simp [Insu.runCustomQuery, h]⟩

/-- C7: a contract whose customer id matches no customer produces no joined
pair and contributes to no output row: removing it from anywhere in the
contracts table leaves both the join and the Fraud by insurance products
result unchanged, with no error reported. -/
theorem c7_orphan_contracts_dropped (l1 l2 : List Insu.Contract)
    (custs : List Insu.Customer) (ct : Insu.Contract)
    (h : ∀ cu ∈ custs, cu.cust_id ≠ ct.cust_id) :
    Insu.joinCnttCustomers (l1 ++ ct :: l2) custs =
      Insu.joinCnttCustomers (l1 ++ l2) custs ∧
    Insu.fraudByProducts (l1 ++ ct :: l2) custs =
      Insu.fraudByProducts (l1 ++ l2) custs := by
  have hfil : custs.filter (fun cu => decide (cu.cust_id = ct.cust_id)) = [] := by
    rw [List.filter_eq_nil_iff]
    intro cu hcu
    simpa using h cu hcu
  have hjoin : Insu.joinCnttCustomers (l1 ++ ct :: l2) custs =
      Insu.joinCnttCustomers (l1 ++ l2) custs := by
    simp only [Insu.joinCnttCustomers, List.flatMap_append, List.flatMap_cons,
      hfil, List.map_nil, List.nil_append]
  exact ⟨hjoin, by simp only [Insu.fraudByProducts, Insu.productRows, hjoin]⟩

/-- Witness for C7 at a concrete input: the orphan contract (customer id 99)
among the example customers changes nothing. -/
theorem c7_orphan_contracts_dropped_witness :
    Insu.joinCnttCustomers ([Insu.exContract] ++ Insu.exContractOrphan :: [])
        [Insu.exCust1] =
      Insu.joinCnttCustomers ([Insu.exContract] ++ []) [Insu.exCust1] ∧
    Insu.fraudByProducts ([Insu.exContract] ++ Insu.exContractOrphan :: [])
        [Insu.exCust1] =
      Insu.fraudByProducts ([Insu.exContract] ++ []) [Insu.exCust1] :=
  c7_orphan_contracts_dropped [Insu.exContract] [] [Insu.exCust1]
    Insu.exContractOrphan (by decide)

/-- C8: every group produced by GROUP BY holds at least one row, so in every
output row of every named query the denominator total count is at least 1 and
the division-by-zero case is unreachable. -/
theorem c8_no_empty_groups (custs : List Insu.Customer)
    (cntt : List Insu.Contract) :
    (∀ r ∈ Insu.fraudByGender custs, 0 < r.total_customers) ∧
    (∀ r ∈ Insu.fraudByAgeGroup custs, 0 < r.total_customers) ∧
    (∀ r ∈ Insu.fraudByProducts cntt custs, 0 < r.total_policies) ∧
    (∀ r ∈ Insu.genderFraudRateOverview custs, 0 < r.total_count) ∧
    (∀ r ∈ Insu.ageFraudRateOverview custs, 0 < r.total_count) := by
  refine ⟨?_, ?_, ?_, ?_, ?_⟩
  · intro r hr
    simp only [Insu.fraudByGender, List.mem_map] at hr
    obtain ⟨⟨k, g⟩, hg, rfl⟩ := hr
    exact Insu.groupRows_length_pos hg
  · intro r hr
    simp only [Insu.fraudByAgeGroup, List.mem_map] at hr
    obtain ⟨⟨k, g⟩, hg, rfl⟩ := hr
    exact Insu.groupRows_length_pos hg
  · intro r hr
    have hr' : r ∈ (Insu.productRows cntt custs).mergeSort Insu.rateDesc :=
      List.mem_of_mem_take hr
    rw [List.mem_mergeSort] at hr'
    simp only [Insu.productRows, List.mem_map] at hr'
    obtain ⟨⟨k, g⟩, hg, rfl⟩ := hr'
    exact Insu.groupRows_length_pos hg
  · intro r hr
    simp only [Insu.genderFraudRateOverview, List.mem_map] at hr
    obtain ⟨⟨k, g⟩, hg, rfl⟩ := hr
    exact Insu.groupRows_length_pos hg
  · intro r hr
    simp only [Insu.ageFraudRateOverview, List.mem_map] at hr
    obtain ⟨⟨k, g⟩, hg, rfl⟩ := hr
    exact Insu.groupRows_length_pos hg

/-- Witness for C8 at a concrete input: the "M" row of Fraud by Gender on
one customer has a positive total. -/
theorem c8_no_empty_groups_witness : 0 < (1 : ℕ) := by
  have hmem : (⟨"M", 1, 1, 100⟩ : Insu.GenderRow) ∈
      Insu.fraudByGender [Insu.exCust1] := by
    have h : Insu.fraudByGender [Insu.exCust1] = [⟨"M", 1, 1, 100⟩] := by
      simp [Insu.fraudByGender, Insu.groupRows, Insu.fraudCount,
        Insu.fraudRateAvg, Insu.isFraud, Insu.exCust1, List.dedup,
        List.pwFilter, List.filter, List.countP, List.countP.go]
    rw [h]
    exact List.mem_singleton.mpr rfl
  exact (c8_no_empty_groups [Insu.exCust1] []).1 ⟨"M", 1, 1, 100⟩ hmem

/-- C10: for every group of customer rows, the Overview formula
`SUM(CASE ...) * 100.0 / COUNT(*)` and the catalog formula
`AVG(CASE ...) * 100` compute the same rational value before any rounding. -/
theorem c10_sum_avg_formulas_agree (g : List Insu.Customer) :
    Insu.fraudRateSum g = Insu.fraudRateAvg g := by
  rw [Insu.fraudRateSum, Insu.fraudRateAvg]
  ring

/-- C9: a customer with a null age falls into the ELSE branch of the
age-bucketing CASE, so it is a member of the "Above 60" group, and both the
Overview age aggregate and the Fraud by Age Group query emit an "Above 60"
row whose total counts exactly the customers labelled "Above 60" (this
customer among them). -/
theorem c9_null_age_counted_above60 (custs : List Insu.Customer)
    (c : Insu.Customer) (hc : c ∈ custs) (hage : c.age = none) :
    Insu.ageCase c.age = "Above 60" ∧
    c ∈ custs.filter (fun x => decide (Insu.ageCase x.age = "Above 60")) ∧
    (∃ r ∈ Insu.fraudByAgeGroup custs, r.age_group = "Above 60" ∧
      r.total_customers =
        (custs.filter
          (fun x => decide (Insu.ageCase x.age = "Above 60"))).length) ∧
    (∃ r ∈ Insu.ageFraudRateOverview custs, r.age_group = "Above 60" ∧
      r.total_count =
        (custs.filter
          (fun x => decide (Insu.ageCase x.age = "Above 60"))).length) := by
  have hlbl : Insu.ageCase c.age = "Above 60" := by rw [hage]; rfl
  have hkey := Insu.key_mem_groupRows (fun x => Insu.ageCase x.age) custs hc
  simp only [hlbl] at hkey
  refine ⟨hlbl, List.mem_filter.mpr ⟨hc, by simp [hlbl]⟩, ?_, ?_⟩
  · exact ⟨_, List.mem_map_of_mem _ hkey, rfl, rfl⟩
  · exact ⟨_, List.mem_map_of_mem _ hkey, rfl, rfl⟩

/-- Witness for C9 at a concrete input: a single customer with a missing
age. -/
theorem c9_null_age_counted_above60_witness :
    Insu.ageCase Insu.exCustNull.age = "Above 60" ∧
    Insu.exCustNull ∈ [Insu.exCustNull].filter
      (fun x => decide (Insu.ageCase x.age = "Above 60")) ∧
    (∃ r ∈ Insu.fraudByAgeGroup [Insu.exCustNull], r.age_group = "Above 60" ∧
      r.total_customers =
        ([Insu.exCustNull].filter
          (fun x => decide (Insu.ageCase x.age = "Above 60"))).length) ∧
    (∃ r ∈ Insu.ageFraudRateOverview [Insu.exCustNull],
      r.age_group = "Above 60" ∧
      r.total_count =
        ([Insu.exCustNull].filter
          (fun x => decide (Insu.ageCase x.age = "Above 60"))).length) :=
  c9_null_age_counted_above60 [Insu.exCustNull] Insu.exCustNull
    (List.mem_singleton.mpr rfl) rfl

/-- C4 counterexample: on a group of three male customers with one fraud,
the Fraud by Gender query displays fraud_rate 100/3, which differs from
fraud_count / total_count * 100 rounded to 2 decimal places (33.33). -/
theorem c4_counterexample :
    Insu.fraudByGender [Insu.exCust1, Insu.exCust2, Insu.exCustM3] =
      [⟨"M", 3, 1, 100 / 3⟩] ∧
    (100 / 3 : ℚ) ≠ Insu.round2 ((1 : ℚ) / (3 : ℚ) * 100) := by
  constructor
  · simp [Insu.fraudByGender, Insu.groupRows, Insu.fraudCount,
      Insu.fraudRateAvg, Insu.isFraud, Insu.exCust1, Insu.exCust2,
      Insu.exCustM3, List.dedup, List.pwFilter, List.filter, List.countP,
      List.countP.go]
    norm_num
  · have h : Insu.round2 ((1 : ℚ) / (3 : ℚ) * 100) = 3333 / 100 := by
      rw [Insu.round2, round_eq]
      norm_num
    rw [h]
    norm_num

/-- C4 amended: the displayed fraud_rate equals
fraud_count / total_count * 100 rounded to 2 decimal places in the two
Overview queries, and equals the unrounded fraud_count / total_count * 100
in the three named catalog queries. -/
theorem c4_amended_rounding (custs : List Insu.Customer)
    (cntt : List Insu.Contract) :
    (∀ r ∈ Insu.genderFraudRateOverview custs,
      r.fraud_rate =
        Insu.round2 ((r.fraud_count : ℚ) / (r.total_count : ℚ) * 100)) ∧
    (∀ r ∈ Insu.ageFraudRateOverview custs,
      r.fraud_rate =
        Insu.round2 ((r.fraud_count : ℚ) / (r.total_count : ℚ) * 100)) ∧
    (∀ r ∈ Insu.fraudByGender custs,
      r.fraud_rate = (r.fraud_count : ℚ) / (r.total_customers : ℚ) * 100) ∧
    (∀ r ∈ Insu.fraudByAgeGroup custs,
      r.fraud_rate = (r.fraud_count : ℚ) / (r.total_customers : ℚ) * 100) ∧
    (∀ r ∈ Insu.fraudByProducts cntt custs,
      r.fraud_rate = (r.fraud_count : ℚ) / (r.total_policies : ℚ) * 100) := by
  refine ⟨?_, ?_, ?_, ?_, ?_⟩
  · intro r hr
    simp only [Insu.genderFraudRateOverview, List.mem_map] at hr
    obtain ⟨⟨k, g⟩, hg, rfl⟩ := hr
    show Insu.round2 (Insu.fraudRateSum g) = _
    rw [Insu.fraudRateSum]
    ring_nf
  · intro r hr
    simp only [Insu.ageFraudRateOverview, List.mem_map] at hr
    obtain ⟨⟨k, g⟩, hg, rfl⟩ := hr
    show Insu.round2 (Insu.fraudRateSum g) = _
    rw [Insu.fraudRateSum]
    ring_nf
  · intro r hr
    simp only [Insu.fraudByGender, List.mem_map] at hr
    obtain ⟨⟨k, g⟩, hg, rfl⟩ := hr
    rfl
  · intro r hr
    simp only [Insu.fraudByAgeGroup, List.mem_map] at hr
    obtain ⟨⟨k, g⟩, hg, rfl⟩ := hr
    rfl
  · intro r hr
    have hr' : r ∈ (Insu.productRows cntt custs).mergeSort Insu.rateDesc :=
      List.mem_of_mem_take hr
    rw [List.mem_mergeSort] at hr'
    simp only [Insu.productRows, List.mem_map] at hr'
    obtain ⟨⟨k, g⟩, hg, rfl⟩ := hr'
    rfl

/-- Witness for (amended) C4 at a concrete input: the Overview gender row
for one fraudulent male customer. -/
theorem c4_amended_rounding_witness :
    (100 : ℚ) = Insu.round2 (((1 : ℕ) : ℚ) / ((1 : ℕ) : ℚ) * 100) := by
  have hmem : (⟨"M", 1, 1, 100⟩ : Insu.OverviewGenderRow) ∈
      Insu.genderFraudRateOverview [Insu.exCust1] := by
    have h : Insu.genderFraudRateOverview [Insu.exCust1] =
        [⟨"M", 1, 1, 100⟩] := by
      simp [Insu.genderFraudRateOverview, Insu.groupRows, Insu.fraudCount,
        Insu.fraudRateSum, Insu.round2, Insu.isFraud, Insu.exCust1,
        List.dedup, List.pwFilter, List.filter, List.countP, List.countP.go,
        round_eq]
      norm_num
    rw [h]
    exact List.mem_singleton.mpr rfl
  exact (c4_amended_rounding [Insu.exCust1] []).1 ⟨"M", 1, 1, 100⟩ hmem
